import Mathlib

/-!
# Verification of the RestyAI sleep-analysis core

A shallow embedding in Lean 4 of the analysis pipeline of the RestyAI
repository (`src/utils/data_processor.py`, `src/utils/analyzer.py`,
`src/utils/disorder_detector.py`), together with theorems settling the
spec claims about it.

Modelling conventions:
* Naive timestamps are whole seconds since the Unix epoch (`Nat`); the
  application's inputs are dates from 2023, so a non-negative encoding is
  faithful.  `pandas` float arithmetic (means, thresholds such as `0.3`)
  is modelled with exact rationals `ℚ`; the decimal literals of the source
  (`0.3`, `0.4`, `1.5`, ...) are written as the rationals they denote.
* `pandas` produces `NaN` for the mean/std of too-small samples; a value
  that can be `NaN` is modelled as `Option ℚ`, with `none` for `NaN`.
* A sample standard deviation is an (irrational) square root, so a guard
  of the source of the form `xs.std() > c` with `c ≥ 0` is modelled by
  comparing the sample *variance* with `c ^ 2` (equivalent since both
  sides of the original comparison are non-negative, and `NaN > c` is
  `False` in IEEE comparison, matching the `none` branch).
-/

/-- Arithmetic mean of a list of rationals (division by zero yields `0`;
only applied to non-empty windows below). -/
def mean (xs : List ℚ) : ℚ := xs.sum / xs.length

/-- `Series.mean()`: `none` models the `NaN` that pandas returns on an
empty column. -/
def mean? (xs : List ℚ) : Option ℚ :=
  if xs.length = 0 then none else some (mean xs)

/-- Sample variance with `ddof = 1` (the square of `Series.std()`);
`none` models the `NaN` pandas returns for fewer than 2 observations. -/
def var? (xs : List ℚ) : Option ℚ :=
  if xs.length < 2 then none
  else some ((xs.map (fun x => (x - mean xs) * (x - mean xs))).sum / ((xs.length : ℚ) - 1))

/-- Models the source guard `xs.std() > c` for a non-negative threshold
`c`: the std is `√(var)`, and `√v > c ↔ v > c * c`; when the std is `NaN`
(fewer than 2 observations) the comparison is `False`. -/
def stdGt (xs : List ℚ) (c : ℚ) : Bool :=
  match var? xs with
  | none => false
  | some v => decide (v > c * c)

/-- Python's two-argument `min` on numbers. -/
def ratMin (a b : ℚ) : ℚ := if a ≤ b then a else b

/-! ## Calendar model

Timestamps are seconds since 1970-01-01 00:00:00 (naive local time).
Civil-date conversion uses the standard era/day-of-era computation;
it is used for years ≥ 1970, which covers the application's domain. -/

/-- Days from 1970-01-01 to the civil date `y-m-d` (valid for `y ≥ 1970`). -/
def civilDays (y m d : Nat) : Nat :=
  let y1 := if m ≤ 2 then y - 1 else y
  let era := y1 / 400
  let yoe := y1 % 400
  let mp := (m + 9) % 12
  let doy := (153 * mp + 2) / 5 + (d - 1)
  let doe := yoe * 365 + yoe / 4 - yoe / 100 + doy
  era * 146097 + doe - 719468

/-- Timestamp (seconds since the epoch) of `y-m-d hh:mm:ss`. -/
def mkTs (y m d hh mm ss : Nat) : Nat :=
  civilDays y m d * 86400 + hh * 3600 + mm * 60 + ss

/-- `Timestamp.hour` / `.dt.hour`: the hour of day, in `0..23`. -/
def tsHour (t : Nat) : Nat := t / 3600 % 24

/-- The hour of day of a timestamp is always below 24. -/
theorem tsHour_lt_24 (t : Nat) : tsHour t < 24 :=
  Nat.mod_lt _ (by decide)

/-- `Timestamp.normalize()`: midnight of the timestamp's day. -/
def tsNormalize (t : Nat) : Nat := t / 86400 * 86400

/-- Weekday names in the `Monday = 0` convention of `day_name()`. -/
def dayNames : List String :=
  ["Monday", "Tuesday", "Wednesday", "Thursday", "Friday", "Saturday", "Sunday"]

/-- `.dt.day_name()` for a timestamp: 1970-01-01 was a Thursday. -/
def dayNameOf (t : Nat) : String :=
  dayNames.getD ((t / 86400 + 3) % 7) ""

/-! ## Cell parsing (`pd.to_datetime`)

`validate_data` and `process_sleep_data` call `pd.to_datetime` on the
three date/timestamp columns.  A raw cell is either an already-converted
datetime value or an unparsed string; parsing accepts the two formats the
interface documents, `YYYY-MM-DD` and `YYYY-MM-DD HH:MM:SS` (modelled for
years ≥ 1970, the application's domain). -/

def digitVal (c : Char) : Option Nat :=
  if c.isDigit then some (c.toNat - 48) else none

def d2n (a b : Char) : Option Nat := do
  let x ← digitVal a
  let y ← digitVal b
  pure (10 * x + y)

def d4n (a b c d : Char) : Option Nat := do
  let x ← d2n a b
  let y ← d2n c d
  pure (100 * x + y)

def parseYMD (c : List Char) : Option Nat :=
  match c with
  | [y1, y2, y3, y4, '-', m1, m2, '-', d1, d2] => do
    let y ← d4n y1 y2 y3 y4
    let m ← d2n m1 m2
    let d ← d2n d1 d2
    if 1970 ≤ y ∧ 1 ≤ m ∧ m ≤ 12 ∧ 1 ≤ d ∧ d ≤ 31 then
      pure (civilDays y m d * 86400)
    else none
  | _ => none

def parseHMS (c : List Char) : Option Nat :=
  match c with
  | [h1, h2, ':', n1, n2, ':', s1, s2] => do
    let h ← d2n h1 h2
    let n ← d2n n1 n2
    let s ← d2n s1 s2
    if h ≤ 23 ∧ n ≤ 59 ∧ s ≤ 59 then pure (h * 3600 + n * 60 + s) else none
  | _ => none

/-- Parse a timestamp string in `YYYY-MM-DD` or `YYYY-MM-DD HH:MM:SS`
format; `none` models `pd.to_datetime` raising a parse error. -/
def parseDate (s : String) : Option Nat :=
  match s.toList with
  | [y1, y2, y3, y4, '-', m1, m2, '-', d1, d2] =>
    parseYMD [y1, y2, y3, y4, '-', m1, m2, '-', d1, d2]
  | [y1, y2, y3, y4, '-', m1, m2, '-', d1, d2, ' ',
     h1, h2, ':', n1, n2, ':', s1, s2] => do
    let day ← parseYMD [y1, y2, y3, y4, '-', m1, m2, '-', d1, d2]
    let sec ← parseHMS [h1, h2, ':', n1, n2, ':', s1, s2]
    pure (day + sec)
  | _ => none

/-- A raw dataframe cell of a date/timestamp column: already a datetime
value, or an unparsed string. -/
inductive RCell
  | time (t : Nat)
  | text (s : String)
deriving DecidableEq

/-- `pd.to_datetime` on one cell: identity on datetime values, parsing
on strings. -/
def toDatetimeCell : RCell → Option Nat
  | .time t => some t
  | .text s => parseDate s

/-- `pd.to_datetime` on a whole column: every cell must convert, and the
result is a datetime-typed column. -/
def toDatetimeCol (col : List RCell) : Option (List RCell) :=
  (col.mapM toDatetimeCell).map (List.map RCell.time)

/-! ## `data_processor.validate_data`

The source checks column presence, converts the three date columns *in
place* (`df['date'] = pd.to_datetime(df['date'])`, etc.), checks the
quality range, and returns `True`.  The in-place column writes are
modelled by returning the post-state of the dataframe next to the
boolean result; `Except` models the raised `ValueError`s. -/

/-- A raw uploaded dataframe: each required column is present (`some`)
or absent (`none`). -/
structure RawDf where
  date : Option (List RCell)
  sleep_start : Option (List RCell)
  sleep_end : Option (List RCell)
  quality : Option (List ℚ)
deriving DecidableEq

def missingColumnsMsg : String :=
  "Missing required columns. Please ensure your CSV contains: date, sleep_start, sleep_end, quality"

def qualityRangeMsg : String :=
  "Sleep quality scores must be between 0 and 100"

/-- Message standing for the error `pd.to_datetime` raises on an
unparsable value. -/
def parseErrorMsg : String := "ParseError"

/-- `validate_data(df)`: returns `(True, post-state of df)` on success;
the three timestamp columns of the post-state hold the parsed values. -/
def validate_data (df : RawDf) : Except String (Bool × RawDf) :=
  if df.date.isSome ∧ df.sleep_start.isSome ∧ df.sleep_end.isSome ∧ df.quality.isSome then
    match toDatetimeCol (df.date.getD []) with
    | none => .error parseErrorMsg
    | some dc =>
      let df1 := { df with date := some dc }
      match toDatetimeCol (df1.sleep_start.getD []) with
      | none => .error parseErrorMsg
      | some sc =>
        let df2 := { df1 with sleep_start := some sc }
        match toDatetimeCol (df2.sleep_end.getD []) with
        | none => .error parseErrorMsg
        | some ec =>
          let df3 := { df2 with sleep_end := some ec }
          if (df3.quality.getD []).all (fun q => decide (0 ≤ q ∧ q ≤ 100)) then
            .ok (true, df3)
          else .error qualityRangeMsg
  else .error missingColumnsMsg

/-! ## `data_processor.process_sleep_data`

Operating on validated rows, whose date columns are already parsed (the
source re-runs `pd.to_datetime`, which is the identity there). -/

/-- One validated raw row (timestamps in seconds since the epoch). -/
structure RawRow where
  date : Nat
  sleep_start : Nat
  sleep_end : Nat
  quality : ℚ
deriving DecidableEq

/-- `duration`: `(sleep_end - sleep_start).dt.total_seconds() / 3600`,
in fractional hours (negative when `sleep_end < sleep_start`). -/
def duration_of (r : RawRow) : ℚ :=
  ((r.sleep_end : ℚ) - (r.sleep_start : ℚ)) / 3600

/-- `latency`: minutes from the idealized bedtime (22:00 of the record's
normalized date) to `sleep_start`. -/
def latency_of (r : RawRow) : ℚ :=
  ((r.sleep_start : ℚ) - ((tsNormalize r.date : ℚ) + 22 * 3600)) / 60

/-- `Series.rolling(window=w, min_periods=1).mean()`: entry `i` is the
mean of the trailing window of the current and up to `w - 1` previous
entries. -/
def rollingMean (w : Nat) (xs : List ℚ) : List ℚ :=
  (List.range xs.length).map fun i => mean ((xs.take (i + 1)).drop (i + 1 - w))

/-- One row of the processed feature table. -/
structure FeatureRow where
  date : Nat
  sleep_start : Nat
  sleep_end : Nat
  quality : ℚ
  duration : ℚ
  latency : ℚ
  day_of_week : String
  rolling_avg_duration : ℚ
  rolling_avg_quality : ℚ
deriving DecidableEq

/-- `process_sleep_data(df)`: derive duration, latency, day of week and
the two rolling averages, in original row order. -/
def process_sleep_data (rows : List RawRow) : List FeatureRow :=
  let rollD := rollingMean 7 (rows.map duration_of)
  let rollQ := rollingMean 7 (rows.map (fun r => r.quality))
  List.ofFn fun i : Fin rows.length =>
    let r := rows.get i
    { date := r.date
      sleep_start := r.sleep_start
      sleep_end := r.sleep_end
      quality := r.quality
      duration := duration_of r
      latency := latency_of r
      day_of_week := dayNameOf r.date
      rolling_avg_duration := rollD.getD i 0
      rolling_avg_quality := rollQ.getD i 0 }

/-! ## `analyzer.calculate_sleep_metrics` -/

/-- The metrics dictionary.  `consistency` in the source is
`100 - df['duration'].std() * 10`; the std is the square root of
`duration_std_sq`, so `consistency` is `NaN` exactly when
`duration_std_sq` is `none`, and is irrational otherwise (no claim needs
its value). -/
structure Metrics where
  avg_duration : Option ℚ
  efficiency : Option ℚ
  avg_latency : Option ℚ
  quality_score : Option ℚ
  duration_std_sq : Option ℚ
deriving DecidableEq

/-- `calculate_sleep_metrics(df)`. -/
def calculate_sleep_metrics (df : List FeatureRow) : Metrics :=
  let durs := df.map (fun r => r.duration)
  { avg_duration := mean? durs
    efficiency := (mean? durs).map (fun m => m / 8 * 100)
    avg_latency := mean? (df.map (fun r => r.latency))
    quality_score := mean? (df.map (fun r => r.quality))
    duration_std_sq := var? durs }

/-- `consistency` of the metrics is `NaN` iff the duration std is. -/
def Metrics.consistencyIsNaN (m : Metrics) : Bool :=
  m.duration_std_sq.isNone

/-! ## `analyzer.perform_statistical_analysis`

The report is a nested dictionary of formatted strings; the model keeps
the underlying numeric values of the entries the claims are about.  The
`'Is Normal Distribution'` entry calls `scipy.stats.normaltest`, which
raises `ValueError` (via `skewtest`) whenever the sample has fewer than
8 observations, so for such inputs the whole function raises; `Except`
models this.  The remaining entries (medians, skewness, kurtosis,
formatted timing and weekly aggregates) are irrational-valued or
string-formatted renderings not referenced by any claim and are omitted
from the model. -/

/-- The four quality-distribution bucket counts of the report, from
`analyzer.py` lines 43-48: Excellent `q ≥ 90`, Good `80 ≤ q < 90`,
Fair `70 ≤ q < 80`, Poor `q < 70`. -/
structure QualityDist where
  excellent : Nat
  good : Nat
  fair : Nat
  poor : Nat
deriving DecidableEq

/-- The bucket counts `len(df[...])` of the `'Quality Distribution'`
section. -/
def qualityDistribution (df : List FeatureRow) : QualityDist :=
  { excellent := df.countP fun r => decide (r.quality ≥ 90)
    good := df.countP fun r => decide (r.quality ≥ 80 ∧ r.quality < 90)
    fair := df.countP fun r => decide (r.quality ≥ 70 ∧ r.quality < 80)
    poor := df.countP fun r => decide (r.quality < 70) }

/-- The numeric content of the statistical report that the claims
reference. -/
structure Analysis where
  duration_mean : Option ℚ
  duration_std_sq : Option ℚ
  quality_mean : Option ℚ
  quality_distribution : QualityDist
deriving DecidableEq

/-- The `ValueError` message `scipy.stats.skewtest` raises inside
`normaltest` for samples of fewer than 8 observations. -/
def skewtestMsg (n : Nat) : String :=
  s!"skewtest is not valid with less than 8 samples; {n} samples were given."

/-- `perform_statistical_analysis(df)`: the `normaltest` call raises for
fewer than 8 rows; otherwise the report is returned. -/
def perform_statistical_analysis (df : List FeatureRow) : Except String Analysis :=
  let durs := df.map (fun r => r.duration)
  if df.length < 8 then .error (skewtestMsg df.length)
  else .ok
    { duration_mean := mean? durs
      duration_std_sq := var? durs
      quality_mean := mean? (df.map (fun r => r.quality))
      quality_distribution := qualityDistribution df }

/-- Interpretation of the average duration (`get_duration_interpretation`). -/
def get_duration_interp (avg_duration : ℚ) : String :=
  if avg_duration ≥ 8 then "Optimal sleep duration achieved"
  else if avg_duration ≥ 7 then "Good sleep duration, but could be improved"
  else if avg_duration ≥ 6 then "Below recommended sleep duration"
  else "Significantly below recommended sleep duration"

/-- Interpretation of the average quality (`get_quality_interpretation`). -/
def get_quality_interp (avg_quality : ℚ) : String :=
  if avg_quality ≥ 90 then "Excellent sleep quality"
  else if avg_quality ≥ 80 then "Good sleep quality"
  else if avg_quality ≥ 70 then "Fair sleep quality"
  else "Poor sleep quality, improvement needed"

/-! ## `disorder_detector.SleepDisorderDetector` -/

/-- The `'insomnia'` threshold record of `disorder_patterns`. -/
structure InsomniaPatterns where
  short_sleep : ℚ := 6
  low_quality : ℚ := 70
  high_latency : ℚ := 30
deriving DecidableEq

/-- The `'irregular_rhythm'` threshold record of `disorder_patterns`. -/
structure IrregularPatterns where
  time_variance : ℚ := 2
  schedule_inconsistency : ℚ := 3 / 2
deriving DecidableEq

/-- The `'delayed_sleep'` threshold record of `disorder_patterns`. -/
structure DelayedPatterns where
  late_bedtime : Nat := 24
  late_wake : Nat := 9
  pattern_days : Nat := 5
deriving DecidableEq

/-- `self.disorder_patterns` as set by `SleepDisorderDetector.__init__`. -/
structure DisorderPatterns where
  insomnia : InsomniaPatterns := {}
  irregular_rhythm : IrregularPatterns := {}
  delayed_sleep : DelayedPatterns := {}
deriving DecidableEq

/-- The configuration installed by the constructor. -/
def disorder_patterns : DisorderPatterns := {}

/-- One evidence entry.  The source stores formatted strings; the model
tags the rule and keeps the interpolated quantity (for the std rules the
squared std, the std itself being irrational). -/
inductive Evidence
  | shortSleep (nights : Nat)
  | poorQuality (nights : Nat)
  | variableSleepTimes (stdSq : ℚ)
  | inconsistentWakeTimes (stdSq : ℚ)
  | lateBedtime (nights : Nat)
  | lateWakeTime (nights : Nat)
deriving DecidableEq

/-- The `{'risk_level', 'confidence', 'evidence'}` dictionary each
detector returns. -/
structure RiskResult where
  risk_level : ℚ
  confidence : ℚ
  evidence : List Evidence
deriving DecidableEq

/-- `_detect_insomnia(df)`. -/
def detect_insomnia (p : DisorderPatterns) (df : List FeatureRow) : RiskResult :=
  let short_sleep_days := df.countP fun r => decide (r.duration < p.insomnia.short_sleep)
  let low_quality_days := df.countP fun r => decide (r.quality < p.insomnia.low_quality)
  let s1 : Bool := decide ((short_sleep_days : ℚ) ≥ (df.length : ℚ) * (3 / 10))
  let s2 : Bool := decide ((low_quality_days : ℚ) ≥ (df.length : ℚ) * (3 / 10))
  let risk_level : ℚ := (if s1 then 2 / 5 else 0) + (if s2 then 3 / 10 else 0)
  { risk_level := ratMin risk_level 1
    confidence := (if s1 then 3 / 10 else 0) + (if s2 then 3 / 10 else 0)
    evidence :=
      (if s1 then [Evidence.shortSleep short_sleep_days] else []) ++
      (if s2 then [Evidence.poorQuality low_quality_days] else []) }

/-- `_detect_irregular_rhythm(df)`. -/
def detect_irregular_rhythm (p : DisorderPatterns) (df : List FeatureRow) : RiskResult :=
  let sleepHours := df.map fun r => (tsHour r.sleep_start : ℚ)
  let wakeHours := df.map fun r => (tsHour r.sleep_end : ℚ)
  let s1 := stdGt sleepHours p.irregular_rhythm.schedule_inconsistency
  let s2 := stdGt wakeHours p.irregular_rhythm.schedule_inconsistency
  let risk_level : ℚ := (if s1 then 1 / 2 else 0) + (if s2 then 3 / 10 else 0)
  { risk_level := ratMin risk_level 1
    confidence := (if s1 then 2 / 5 else 0) + (if s2 then 3 / 10 else 0)
    evidence :=
      (if s1 then [Evidence.variableSleepTimes ((var? sleepHours).getD 0)] else []) ++
      (if s2 then [Evidence.inconsistentWakeTimes ((var? wakeHours).getD 0)] else []) }

/-- `_detect_delayed_sleep(df)`. -/
def detect_delayed_sleep (p : DisorderPatterns) (df : List FeatureRow) : RiskResult :=
  let late_bedtimes := df.countP fun r => decide (tsHour r.sleep_start ≥ p.delayed_sleep.late_bedtime)
  let late_wakes := df.countP fun r => decide (tsHour r.sleep_end ≥ p.delayed_sleep.late_wake)
  let s1 : Bool := decide ((late_bedtimes : ℚ) ≥ (df.length : ℚ) * (2 / 5))
  let s2 : Bool := decide ((late_wakes : ℚ) ≥ (df.length : ℚ) * (2 / 5))
  let risk_level : ℚ := (if s1 then 2 / 5 else 0) + (if s2 then 2 / 5 else 0)
  { risk_level := ratMin risk_level 1
    confidence := (if s1 then 3 / 10 else 0) + (if s2 then 3 / 10 else 0)
    evidence :=
      (if s1 then [Evidence.lateBedtime late_bedtimes] else []) ++
      (if s2 then [Evidence.lateWakeTime late_wakes] else []) }

/-- `_generate_recommendations(detected_disorders)`. -/
def generate_recommendations (detected : List String) : List String :=
  (if detected.contains "Insomnia" then
    ["Maintain a consistent sleep schedule",
     "Create a relaxing bedtime routine",
     "Avoid screens 1-2 hours before bed",
     "Consider consulting a sleep specialist"]
   else []) ++
  (if detected.contains "Irregular Sleep-Wake Rhythm" then
    ["Set fixed wake-up and bedtime hours",
     "Expose yourself to natural light during the day",
     "Avoid long naps, especially in the late afternoon",
     "Create a structured daily routine"]
   else []) ++
  (if detected.contains "Delayed Sleep Phase" then
    ["Gradually adjust bedtime earlier by 15 minutes each week",
     "Use bright light therapy in the morning",
     "Avoid bright lights in the evening",
     "Maintain a consistent wake time, even on weekends"]
   else [])

/-- The `results` dictionary of `analyze_sleep_patterns`; `risk_levels`
keeps dictionary insertion order as an association list. -/
structure AnalysisResults where
  detected_disorders : List String
  risk_levels : List (String × RiskResult)
  recommendations : List String
deriving DecidableEq

/-- `analyze_sleep_patterns(df)`. -/
def analyze_sleep_patterns (p : DisorderPatterns) (df : List FeatureRow) : AnalysisResults :=
  let insomnia_risk := detect_insomnia p df
  let rhythm_risk := detect_irregular_rhythm p df
  let delayed_risk := detect_delayed_sleep p df
  let step1 : List String × List (String × RiskResult) :=
    if insomnia_risk.risk_level > 0 then (["Insomnia"], [("Insomnia", insomnia_risk)])
    else ([], [])
  let step2 : List String × List (String × RiskResult) :=
    if rhythm_risk.risk_level > 0 then
      (step1.1 ++ ["Irregular Sleep-Wake Rhythm"],
       step1.2 ++ [("Irregular Sleep-Wake Rhythm", rhythm_risk)])
    else step1
  let step3 : List String × List (String × RiskResult) :=
    if delayed_risk.risk_level > 0 then
      (step2.1 ++ ["Delayed Sleep Phase"], step2.2 ++ [("Delayed Sleep Phase", delayed_risk)])
    else step2
  { detected_disorders := step3.1
    risk_levels := step3.2
    recommendations := generate_recommendations step3.1 }

/-! ## Helper lemmas: closed forms of the detectors

The `min (·) 1.0` of each detector is redundant because the rule
increments sum to at most `0.8`; these lemmas express each detector as
the plain sum of its per-rule contributions. -/

theorem detect_insomnia_closed (p : DisorderPatterns) (df : List FeatureRow) :
    detect_insomnia p df =
      { risk_level :=
          (if (df.countP fun r => decide (r.duration < p.insomnia.short_sleep)) ≥ (df.length : ℚ) * (3 / 10) then 2 / 5 else 0) +
          (if (df.countP fun r => decide (r.quality < p.insomnia.low_quality)) ≥ (df.length : ℚ) * (3 / 10) then 3 / 10 else 0)
        confidence :=
          (if (df.countP fun r => decide (r.duration < p.insomnia.short_sleep)) ≥ (df.length : ℚ) * (3 / 10) then 3 / 10 else 0) +
          (if (df.countP fun r => decide (r.quality < p.insomnia.low_quality)) ≥ (df.length : ℚ) * (3 / 10) then 3 / 10 else 0)
        evidence :=
          (if (df.countP fun r => decide (r.duration < p.insomnia.short_sleep)) ≥ (df.length : ℚ) * (3 / 10) then
            [Evidence.shortSleep (df.countP fun r => decide (r.duration < p.insomnia.short_sleep))] else []) ++
          (if (df.countP fun r => decide (r.quality < p.insomnia.low_quality)) ≥ (df.length : ℚ) * (3 / 10) then
            [Evidence.poorQuality (df.countP fun r => decide (r.quality < p.insomnia.low_quality))] else []) } := by
  simp only [detect_insomnia, ratMin]
  split_ifs <;> simp_all <;> linarith

theorem detect_irregular_closed (p : DisorderPatterns) (df : List FeatureRow) :
    detect_irregular_rhythm p df =
      { risk_level :=
          (if stdGt (df.map fun r => (tsHour r.sleep_start : ℚ)) p.irregular_rhythm.schedule_inconsistency then 1 / 2 else 0) +
          (if stdGt (df.map fun r => (tsHour r.sleep_end : ℚ)) p.irregular_rhythm.schedule_inconsistency then 3 / 10 else 0)
        confidence :=
          (if stdGt (df.map fun r => (tsHour r.sleep_start : ℚ)) p.irregular_rhythm.schedule_inconsistency then 2 / 5 else 0) +
          (if stdGt (df.map fun r => (tsHour r.sleep_end : ℚ)) p.irregular_rhythm.schedule_inconsistency then 3 / 10 else 0)
        evidence :=
          (if stdGt (df.map fun r => (tsHour r.sleep_start : ℚ)) p.irregular_rhythm.schedule_inconsistency then
            [Evidence.variableSleepTimes ((var? (df.map fun r => (tsHour r.sleep_start : ℚ))).getD 0)] else []) ++
          (if stdGt (df.map fun r => (tsHour r.sleep_end : ℚ)) p.irregular_rhythm.schedule_inconsistency then
            [Evidence.inconsistentWakeTimes ((var? (df.map fun r => (tsHour r.sleep_end : ℚ))).getD 0)] else []) } := by
  simp only [detect_irregular_rhythm, ratMin]
  split_ifs <;> simp_all <;> linarith

theorem detect_delayed_closed (p : DisorderPatterns) (df : List FeatureRow) :
    detect_delayed_sleep p df =
      { risk_level :=
          (if (df.countP fun r => decide (tsHour r.sleep_start ≥ p.delayed_sleep.late_bedtime)) ≥ (df.length : ℚ) * (2 / 5) then 2 / 5 else 0) +
          (if (df.countP fun r => decide (tsHour r.sleep_end ≥ p.delayed_sleep.late_wake)) ≥ (df.length : ℚ) * (2 / 5) then 2 / 5 else 0)
        confidence :=
          (if (df.countP fun r => decide (tsHour r.sleep_start ≥ p.delayed_sleep.late_bedtime)) ≥ (df.length : ℚ) * (2 / 5) then 3 / 10 else 0) +
          (if (df.countP fun r => decide (tsHour r.sleep_end ≥ p.delayed_sleep.late_wake)) ≥ (df.length : ℚ) * (2 / 5) then 3 / 10 else 0)
        evidence :=
          (if (df.countP fun r => decide (tsHour r.sleep_start ≥ p.delayed_sleep.late_bedtime)) ≥ (df.length : ℚ) * (2 / 5) then
            [Evidence.lateBedtime (df.countP fun r => decide (tsHour r.sleep_start ≥ p.delayed_sleep.late_bedtime))] else []) ++
          (if (df.countP fun r => decide (tsHour r.sleep_end ≥ p.delayed_sleep.late_wake)) ≥ (df.length : ℚ) * (2 / 5) then
            [Evidence.lateWakeTime (df.countP fun r => decide (tsHour r.sleep_end ≥ p.delayed_sleep.late_wake))] else []) } := by
  simp only [detect_delayed_sleep, ratMin]
  split_ifs <;> simp_all <;> linarith

/-! ## Helper lemmas: the feature processor -/

theorem length_rollingMean (w : Nat) (xs : List ℚ) :
    (rollingMean w xs).length = xs.length := by
  simp [rollingMean]

theorem getD_rollingMean (w : Nat) (xs : List ℚ) (i : Nat) (h : i < xs.length) :
    (rollingMean w xs).getD i 0 = mean ((xs.take (i + 1)).drop (i + 1 - w)) := by
  rw [List.getD_eq_getElem _ _ (by simpa [length_rollingMean] using h)]
  simp [rollingMean]

theorem length_process_sleep_data (rows : List RawRow) :
    (process_sleep_data rows).length = rows.length := by
  simp [process_sleep_data]

theorem getD_process_sleep_data (rows : List RawRow) (i : Nat) (h : i < rows.length) (d : FeatureRow) :
    (process_sleep_data rows).getD i d =
      { date := (rows.getD i ⟨0, 0, 0, 0⟩).date
        sleep_start := (rows.getD i ⟨0, 0, 0, 0⟩).sleep_start
        sleep_end := (rows.getD i ⟨0, 0, 0, 0⟩).sleep_end
        quality := (rows.getD i ⟨0, 0, 0, 0⟩).quality
        duration := duration_of (rows.getD i ⟨0, 0, 0, 0⟩)
        latency := latency_of (rows.getD i ⟨0, 0, 0, 0⟩)
        day_of_week := dayNameOf (rows.getD i ⟨0, 0, 0, 0⟩).date
        rolling_avg_duration := (rollingMean 7 (rows.map duration_of)).getD i 0
        rolling_avg_quality := (rollingMean 7 (rows.map fun r => r.quality)).getD i 0 } := by
  rw [List.getD_eq_getElem _ _ (by simpa [length_process_sleep_data] using h)]
  rw [List.getD_eq_getElem _ _ h]
  simp [process_sleep_data]

theorem countP_late_bedtime_eq_zero (df : List FeatureRow) :
    (df.countP fun r => decide (tsHour r.sleep_start ≥ 24)) = 0 := by
  rw [List.countP_eq_zero]
  intro a _
  simp
  exact tsHour_lt_24 _

theorem stdGt_of_short (xs : List ℚ) (c : ℚ) (h : xs.length < 2) : stdGt xs c = false := by
  simp [stdGt, var?, h]

/-- C1: for every feature table, each of the three disorder detectors
(insomnia, irregular rhythm, delayed sleep phase) returns a `risk_level`
in `[0, 1]` and a `confidence` in `[0, 1]`, no matter how many of its
rules fire. -/
theorem c1_detector_outputs_in_unit_interval (df : List FeatureRow) :
    (0 ≤ (detect_insomnia disorder_patterns df).risk_level ∧
        (detect_insomnia disorder_patterns df).risk_level ≤ 1 ∧
        0 ≤ (detect_insomnia disorder_patterns df).confidence ∧
        (detect_insomnia disorder_patterns df).confidence ≤ 1) ∧
    (0 ≤ (detect_irregular_rhythm disorder_patterns df).risk_level ∧
        (detect_irregular_rhythm disorder_patterns df).risk_level ≤ 1 ∧
        0 ≤ (detect_irregular_rhythm disorder_patterns df).confidence ∧
        (detect_irregular_rhythm disorder_patterns df).confidence ≤ 1) ∧
    (0 ≤ (detect_delayed_sleep disorder_patterns df).risk_level ∧
        (detect_delayed_sleep disorder_patterns df).risk_level ≤ 1 ∧
        0 ≤ (detect_delayed_sleep disorder_patterns df).confidence ∧
        (detect_delayed_sleep disorder_patterns df).confidence ≤ 1) := by
  simp only [detect_insomnia_closed, detect_irregular_closed, detect_delayed_closed]
  split_ifs <;> norm_num

/-- C2 counterexample: on the empty feature table the late-bedtime rule
fires vacuously (`0 ≥ 0.4 * 0`), contributing `+0.4` risk; the
delayed-sleep risk is `0.8`, not the `≤ 0.4` the late-wake rule alone can
produce, and the evidence list starts with the late-bedtime entry. -/
theorem c2_empty_table_late_bedtime_fires :
    (detect_delayed_sleep disorder_patterns []).risk_level = 4 / 5 ∧
    (detect_delayed_sleep disorder_patterns []).evidence =
      [Evidence.lateBedtime 0, Evidence.lateWakeTime 0] := by
  rw [detect_delayed_closed]
  norm_num

/-- C2 (amended): the condition `sleep_start.hour ≥ 24` never holds, so
the late-bedtime count is `0` for every feature table; on every
*nonempty* feature table the late-bedtime rule contributes nothing and
the delayed-sleep result is exactly the late-wake rule's contribution.
(On the empty table the rule still fires, since `0 ≥ 0.4 * 0`.) -/
theorem c2_late_bedtime_rule_dead_on_nonempty (df : List FeatureRow) (h : df ≠ []) :
    (df.countP fun r => decide (tsHour r.sleep_start ≥ 24)) = 0 ∧
    detect_delayed_sleep disorder_patterns df =
      { risk_level :=
          if ((df.countP fun r => decide (tsHour r.sleep_end ≥ 9)) : ℚ) ≥ (df.length : ℚ) * (2 / 5) then 2 / 5 else 0
        confidence :=
          if ((df.countP fun r => decide (tsHour r.sleep_end ≥ 9)) : ℚ) ≥ (df.length : ℚ) * (2 / 5) then 3 / 10 else 0
        evidence :=
          if ((df.countP fun r => decide (tsHour r.sleep_end ≥ 9)) : ℚ) ≥ (df.length : ℚ) * (2 / 5) then
            [Evidence.lateWakeTime (df.countP fun r => decide (tsHour r.sleep_end ≥ 9))] else [] } := by
  have hlen : (1 : ℚ) ≤ (df.length : ℚ) := by
    have h2 := List.length_pos.mpr h
    exact_mod_cast h2
  have hc1 : ¬ (((0 : Nat) : ℚ) ≥ (df.length : ℚ) * (2 / 5)) := by
    push_neg
    nlinarith
  refine ⟨countP_late_bedtime_eq_zero df, ?_⟩
  rw [detect_delayed_closed]
  simp only [disorder_patterns]
  norm_num [countP_late_bedtime_eq_zero df, hc1]
  exact List.length_pos.mpr h

def c2Row : FeatureRow :=
  { date := mkTs 2023 1 1 0 0 0
    sleep_start := mkTs 2023 1 1 23 0 0
    sleep_end := mkTs 2023 1 2 7 0 0
    quality := 80
    duration := 8
    latency := 60
    day_of_week := "Sunday"
    rolling_avg_duration := 8
    rolling_avg_quality := 80 }

/-- C2 witness: the amended theorem instantiated at a concrete
one-row table. -/
theorem c2_witness :
    (List.countP (fun r => decide (tsHour r.sleep_start ≥ 24)) [c2Row]) = 0 ∧
    detect_delayed_sleep disorder_patterns [c2Row] = { risk_level := 0, confidence := 0, evidence := [] } := by
  have h := c2_late_bedtime_rule_dead_on_nonempty [c2Row] (by simp)
  refine ⟨h.1, ?_⟩
  rw [h.2]
  norm_num [c2Row, tsHour, mkTs, civilDays]

/-- C3 counterexample: on the empty feature table no rule has matching
data, yet the insomnia detector reports risk `0.7` and confidence `0.6`
(both its count rules fire vacuously), and the analysis detects both
Insomnia and Delayed Sleep Phase. -/
theorem c3_empty_table_rules_fire_vacuously :
    (detect_insomnia disorder_patterns []).risk_level = 7 / 10 ∧
    (detect_insomnia disorder_patterns []).confidence = 3 / 5 ∧
    (analyze_sleep_patterns disorder_patterns []).detected_disorders =
      ["Insomnia", "Delayed Sleep Phase"] := by
  refine ⟨?_, ?_, ?_⟩
  · rw [detect_insomnia_closed]; norm_num
  · rw [detect_insomnia_closed]; norm_num
  · simp only [analyze_sleep_patterns, detect_insomnia_closed, detect_irregular_closed,
      detect_delayed_closed]
    norm_num [stdGt, var?]

/-- C3 (amended): the detector is a total function (it never raises),
and on every *nonempty* feature table a rule with no matching data
contributes zero risk and zero confidence to its disorder, whatever its
sibling rule does: with the short-sleep count zero the insomnia result
is exactly the low-quality rule's contribution alone; with the
low-quality count zero it is exactly the short-sleep rule's
contribution alone; with the late-wake count zero the delayed-sleep
result is zero (the late-bedtime count being always zero); and with
fewer than 2 rows (std `NaN`, no data for the stdev rules) the
irregular-rhythm result is zero.  On the empty table the count rules
fire vacuously instead. -/
theorem c3_unmatched_rule_contributes_zero (df : List FeatureRow) (h : df ≠ []) :
    ((df.countP fun r => decide (r.duration < 6)) = 0 →
      detect_insomnia disorder_patterns df =
        { risk_level :=
            if ((df.countP fun r => decide (r.quality < 70)) : ℚ) ≥ (df.length : ℚ) * (3 / 10) then 3 / 10 else 0
          confidence :=
            if ((df.countP fun r => decide (r.quality < 70)) : ℚ) ≥ (df.length : ℚ) * (3 / 10) then 3 / 10 else 0
          evidence :=
            if ((df.countP fun r => decide (r.quality < 70)) : ℚ) ≥ (df.length : ℚ) * (3 / 10) then
              [Evidence.poorQuality (df.countP fun r => decide (r.quality < 70))] else [] }) ∧
    ((df.countP fun r => decide (r.quality < 70)) = 0 →
      detect_insomnia disorder_patterns df =
        { risk_level :=
            if ((df.countP fun r => decide (r.duration < 6)) : ℚ) ≥ (df.length : ℚ) * (3 / 10) then 2 / 5 else 0
          confidence :=
            if ((df.countP fun r => decide (r.duration < 6)) : ℚ) ≥ (df.length : ℚ) * (3 / 10) then 3 / 10 else 0
          evidence :=
            if ((df.countP fun r => decide (r.duration < 6)) : ℚ) ≥ (df.length : ℚ) * (3 / 10) then
              [Evidence.shortSleep (df.countP fun r => decide (r.duration < 6))] else [] }) ∧
    ((df.countP fun r => decide (tsHour r.sleep_end ≥ 9)) = 0 →
      detect_delayed_sleep disorder_patterns df = { risk_level := 0, confidence := 0, evidence := [] }) ∧
    (df.length < 2 →
      detect_irregular_rhythm disorder_patterns df = { risk_level := 0, confidence := 0, evidence := [] }) := by
  have hlen : (1 : ℚ) ≤ (df.length : ℚ) := by
    have h2 := List.length_pos.mpr h
    exact_mod_cast h2
  have hc3 : ¬ (((0 : Nat) : ℚ) ≥ (df.length : ℚ) * (3 / 10)) := by
    push_neg; nlinarith
  have hc2 : ¬ (((0 : Nat) : ℚ) ≥ (df.length : ℚ) * (2 / 5)) := by
    push_neg; nlinarith
  have hf3 : ¬ ((df.length : ℚ) * (3 / 10) ≤ 0) := by
    push_neg; nlinarith
  have hf2 : ¬ ((df.length : ℚ) * (2 / 5) ≤ 0) := by
    push_neg; nlinarith
  refine ⟨?_, ?_, ?_, ?_⟩
  · intro h1
    rw [detect_insomnia_closed]
    simp only [disorder_patterns]
    norm_num [h1, hc3, hf3]
  · intro h1
    rw [detect_insomnia_closed]
    simp only [disorder_patterns]
    norm_num [h1, hc3, hf3]
  · intro h1
    rw [detect_delayed_closed]
    simp only [disorder_patterns]
    norm_num [h1, countP_late_bedtime_eq_zero df, hc2, hf2]
  · intro h1
    rw [detect_irregular_closed]
    rw [stdGt_of_short _ _ (by simpa using h1), stdGt_of_short _ _ (by simpa using h1)]
    norm_num

def c3Row : FeatureRow :=
  { date := mkTs 2023 1 1 0 0 0
    sleep_start := mkTs 2023 1 1 23 0 0
    sleep_end := mkTs 2023 1 2 7 0 0
    quality := 80
    duration := 8
    latency := 60
    day_of_week := "Sunday"
    rolling_avg_duration := 8
    rolling_avg_quality := 80 }

/-- A one-row table whose only rule match is low quality (`50 < 70`):
the short-sleep rule has no matching data while its sibling fires. -/
def c3RowQ : FeatureRow :=
  { date := mkTs 2023 1 1 0 0 0
    sleep_start := mkTs 2023 1 1 23 0 0
    sleep_end := mkTs 2023 1 2 7 0 0
    quality := 50
    duration := 8
    latency := 60
    day_of_week := "Sunday"
    rolling_avg_duration := 8
    rolling_avg_quality := 50 }

/-- C3 witness: the amended theorem instantiated at two concrete one-row
tables — one where the low-quality rule fires while the short-sleep rule
has no matching data (risk exactly `0.3`, the sibling's contribution
alone), and one where no rule matches at all. -/
theorem c3_witness :
    detect_insomnia disorder_patterns [c3RowQ] =
      { risk_level := 3 / 10, confidence := 3 / 10, evidence := [Evidence.poorQuality 1] } ∧
    detect_insomnia disorder_patterns [c3Row] = { risk_level := 0, confidence := 0, evidence := [] } ∧
    detect_delayed_sleep disorder_patterns [c3Row] = { risk_level := 0, confidence := 0, evidence := [] } ∧
    detect_irregular_rhythm disorder_patterns [c3Row] = { risk_level := 0, confidence := 0, evidence := [] } := by
  have hA := c3_unmatched_rule_contributes_zero [c3RowQ] (by simp)
  have hB := c3_unmatched_rule_contributes_zero [c3Row] (by simp)
  refine ⟨?_, ?_, hB.2.2.1 ?_, hB.2.2.2 (by simp)⟩
  · rw [hA.1 (by norm_num [c3RowQ, List.countP_cons])]
    norm_num [c3RowQ, List.countP_cons]
  · rw [hB.2.1 (by norm_num [c3Row, List.countP_cons])]
    norm_num [c3Row, List.countP_cons]
  · norm_num [c3Row, List.countP_cons, tsHour, mkTs, civilDays]

/-- A concrete feature row for the C4 scenario. -/
def c4FRow (durQ : ℚ) (startTs endTs : Nat) : FeatureRow :=
  { date := tsNormalize startTs
    sleep_start := startTs
    sleep_end := endTs
    quality := 80
    duration := durQ
    latency := 90
    day_of_week := dayNameOf startTs
    rolling_avg_duration := durQ
    rolling_avg_quality := 80 }

def c4Table : List FeatureRow :=
  [c4FRow (11/2) (mkTs 2023 1 1 23 30 0) (mkTs 2023 1 2 5 0 0),
   c4FRow (11/2) (mkTs 2023 1 2 23 30 0) (mkTs 2023 1 3 5 0 0),
   c4FRow (11/2) (mkTs 2023 1 3 23 30 0) (mkTs 2023 1 4 5 0 0),
   c4FRow (11/2) (mkTs 2023 1 4 23 30 0) (mkTs 2023 1 5 5 0 0),
   c4FRow (15/2) (mkTs 2023 1 5 23 30 0) (mkTs 2023 1 6 7 0 0),
   c4FRow (15/2) (mkTs 2023 1 6 23 30 0) (mkTs 2023 1 7 7 0 0),
   c4FRow (15/2) (mkTs 2023 1 7 23 30 0) (mkTs 2023 1 8 7 0 0),
   c4FRow (15/2) (mkTs 2023 1 8 23 30 0) (mkTs 2023 1 9 7 0 0),
   c4FRow (15/2) (mkTs 2023 1 9 23 30 0) (mkTs 2023 1 10 7 0 0),
   c4FRow (15/2) (mkTs 2023 1 10 23 30 0) (mkTs 2023 1 11 7 0 0)]

/-- C4: for every feature table of `N` rows, the insomnia detector adds
`+0.4` risk and `+0.3` confidence iff `count(duration < 6.0) ≥ 0.3 * N`,
and `+0.3` risk and `+0.3` confidence iff `count(quality < 70) ≥ 0.3 * N`;
for the concrete 10-record table with exactly 4 short-sleep rows and all
qualities `≥ 70`, Insomnia is detected with `risk_level = 0.4` and
`confidence = 0.3`. -/
theorem c4_insomnia_additive_rules :
    (∀ df : List FeatureRow,
      detect_insomnia disorder_patterns df =
        { risk_level :=
            (if ((df.countP fun r => decide (r.duration < 6)) : ℚ) ≥ (df.length : ℚ) * (3 / 10) then 2 / 5 else 0) +
            (if ((df.countP fun r => decide (r.quality < 70)) : ℚ) ≥ (df.length : ℚ) * (3 / 10) then 3 / 10 else 0)
          confidence :=
            (if ((df.countP fun r => decide (r.duration < 6)) : ℚ) ≥ (df.length : ℚ) * (3 / 10) then 3 / 10 else 0) +
            (if ((df.countP fun r => decide (r.quality < 70)) : ℚ) ≥ (df.length : ℚ) * (3 / 10) then 3 / 10 else 0)
          evidence :=
            (if ((df.countP fun r => decide (r.duration < 6)) : ℚ) ≥ (df.length : ℚ) * (3 / 10) then
              [Evidence.shortSleep (df.countP fun r => decide (r.duration < 6))] else []) ++
            (if ((df.countP fun r => decide (r.quality < 70)) : ℚ) ≥ (df.length : ℚ) * (3 / 10) then
              [Evidence.poorQuality (df.countP fun r => decide (r.quality < 70))] else []) }) ∧
    (List.countP (fun r => decide (r.duration < (6 : ℚ))) c4Table) = 4 ∧
    (List.countP (fun r => decide (r.quality < (70 : ℚ))) c4Table) = 0 ∧
    c4Table.length = 10 ∧
    (analyze_sleep_patterns disorder_patterns c4Table).detected_disorders = ["Insomnia"] ∧
    (detect_insomnia disorder_patterns c4Table).risk_level = 2 / 5 ∧
    (detect_insomnia disorder_patterns c4Table).confidence = 3 / 10 := by
  refine ⟨?_, ?_, ?_, ?_, ?_, ?_, ?_⟩
  · intro df
    rw [detect_insomnia_closed]
    simp [disorder_patterns]
  · norm_num [c4Table, c4FRow, List.countP_cons]
  · norm_num [c4Table, c4FRow, List.countP_cons]
  · norm_num [c4Table]
  · simp only [analyze_sleep_patterns, detect_insomnia_closed, detect_irregular_closed,
      detect_delayed_closed]
    norm_num [c4Table, c4FRow, List.countP_cons, tsHour, mkTs, civilDays, stdGt, var?, mean,
      disorder_patterns]
  · rw [detect_insomnia_closed]
    norm_num [c4Table, c4FRow, List.countP_cons, disorder_patterns]
  · rw [detect_insomnia_closed]
    norm_num [c4Table, c4FRow, List.countP_cons, disorder_patterns]

/-- The detector configuration with an arbitrary `time_variance`. -/
def patternsWithTimeVariance (tv : ℚ) : DisorderPatterns :=
  { irregular_rhythm := { time_variance := tv } }

/-- C9: for every feature table and every value of the configured
`time_variance` threshold, the irregular-rhythm detector adds `+0.5`
risk and `+0.4` confidence iff the sleep-start-hour stdev exceeds `1.5`,
and `+0.3`/`+0.3` iff the sleep-end-hour stdev exceeds `1.5`; the result
is independent of `time_variance` (the `2.0` threshold is never used). -/
theorem c9_irregular_rhythm_rules (tv : ℚ) (df : List FeatureRow) :
    detect_irregular_rhythm (patternsWithTimeVariance tv) df =
      { risk_level :=
          (if stdGt (df.map fun r => (tsHour r.sleep_start : ℚ)) (3 / 2) then 1 / 2 else 0) +
          (if stdGt (df.map fun r => (tsHour r.sleep_end : ℚ)) (3 / 2) then 3 / 10 else 0)
        confidence :=
          (if stdGt (df.map fun r => (tsHour r.sleep_start : ℚ)) (3 / 2) then 2 / 5 else 0) +
          (if stdGt (df.map fun r => (tsHour r.sleep_end : ℚ)) (3 / 2) then 3 / 10 else 0)
        evidence :=
          (if stdGt (df.map fun r => (tsHour r.sleep_start : ℚ)) (3 / 2) then
            [Evidence.variableSleepTimes ((var? (df.map fun r => (tsHour r.sleep_start : ℚ))).getD 0)] else []) ++
          (if stdGt (df.map fun r => (tsHour r.sleep_end : ℚ)) (3 / 2) then
            [Evidence.inconsistentWakeTimes ((var? (df.map fun r => (tsHour r.sleep_end : ℚ))).getD 0)] else []) } ∧
    detect_irregular_rhythm (patternsWithTimeVariance tv) df =
      detect_irregular_rhythm disorder_patterns df := by
  constructor
  · rw [detect_irregular_closed]
    simp [patternsWithTimeVariance]
  · rw [detect_irregular_closed, detect_irregular_closed]
    simp [patternsWithTimeVariance, disorder_patterns]

theorem bucket_indicator (q : ℚ) :
    ((if 90 ≤ q then 1 else 0) : Nat) + (if 80 ≤ q ∧ q < 90 then 1 else 0) +
      (if 70 ≤ q ∧ q < 80 then 1 else 0) + (if q < 70 then 1 else 0) = 1 := by
  rcases lt_or_le q 70 with h1 | h1
  · rw [if_neg (by linarith), if_neg (by rintro ⟨a, b⟩; linarith),
      if_neg (by rintro ⟨a, b⟩; linarith), if_pos h1]
  rcases lt_or_le q 80 with h2 | h2
  · rw [if_neg (by linarith), if_neg (by rintro ⟨a, b⟩; linarith),
      if_pos ⟨h1, h2⟩, if_neg (by linarith)]
  rcases lt_or_le q 90 with h3 | h3
  · rw [if_neg (by linarith), if_pos ⟨h2, h3⟩, if_neg (by rintro ⟨a, b⟩; linarith),
      if_neg (by linarith)]
  · rw [if_pos h3, if_neg (by rintro ⟨a, b⟩; linarith), if_neg (by rintro ⟨a, b⟩; linarith),
      if_neg (by linarith)]

theorem quality_buckets_sum (df : List FeatureRow) :
    (qualityDistribution df).excellent + (qualityDistribution df).good +
      (qualityDistribution df).fair + (qualityDistribution df).poor = df.length := by
  induction df with
  | nil => simp [qualityDistribution]
  | cons r t ih =>
    simp only [qualityDistribution, List.countP_cons, List.length_cons,
      Bool.and_eq_true, decide_eq_true_eq] at ih ⊢
    have hb := bucket_indicator r.quality
    generalize (if (90 : ℚ) ≤ r.quality then (1 : Nat) else 0) = iE at hb ⊢
    generalize (if (80 : ℚ) ≤ r.quality ∧ r.quality < 90 then (1 : Nat) else 0) = iG at hb ⊢
    generalize (if (70 : ℚ) ≤ r.quality ∧ r.quality < 80 then (1 : Nat) else 0) = iF at hb ⊢
    generalize (if r.quality < (70 : ℚ) then (1 : Nat) else 0) = iP at hb ⊢
    omega

/-- C7: for every feature table with quality values in `[0, 100]`, the
four quality-distribution bucket counts (Excellent `[90,100]`, Good
`[80,90)`, Fair `[70,80)`, Poor `[0,70)`) sum exactly to the row count;
if every quality equals `70`, the Fair bucket holds all rows and the
other three are empty. -/
theorem c7_quality_buckets_partition (df : List FeatureRow)
    (h : ∀ r ∈ df, 0 ≤ r.quality ∧ r.quality ≤ 100) :
    (qualityDistribution df).excellent + (qualityDistribution df).good +
      (qualityDistribution df).fair + (qualityDistribution df).poor = df.length ∧
    ((∀ r ∈ df, r.quality = 70) →
      qualityDistribution df = { excellent := 0, good := 0, fair := df.length, poor := 0 }) := by
  refine ⟨quality_buckets_sum df, ?_⟩
  intro hq
  simp only [qualityDistribution, QualityDist.mk.injEq]
  refine ⟨?_, ?_, ?_, ?_⟩
  · rw [List.countP_eq_zero]
    intro a ha
    norm_num [hq a ha]
  · rw [List.countP_eq_zero]
    intro a ha
    norm_num [hq a ha]
  · rw [List.countP_eq_length]
    intro a ha
    norm_num [hq a ha]
  · rw [List.countP_eq_zero]
    intro a ha
    norm_num [hq a ha]

def c7Row : FeatureRow :=
  { date := mkTs 2023 1 1 0 0 0
    sleep_start := mkTs 2023 1 1 23 0 0
    sleep_end := mkTs 2023 1 2 7 0 0
    quality := 70
    duration := 8
    latency := 60
    day_of_week := "Sunday"
    rolling_avg_duration := 8
    rolling_avg_quality := 70 }

/-- C7 witness: the theorem instantiated at a concrete one-row table
with quality `70`. -/
theorem c7_witness :
    ((qualityDistribution [c7Row]).excellent + (qualityDistribution [c7Row]).good +
      (qualityDistribution [c7Row]).fair + (qualityDistribution [c7Row]).poor = 1) ∧
    qualityDistribution [c7Row] = { excellent := 0, good := 0, fair := 1, poor := 0 } := by
  have h := c7_quality_buckets_partition [c7Row] (by norm_num [c7Row])
  exact ⟨h.1, h.2 (by norm_num [c7Row])⟩

def c6Row : FeatureRow :=
  { date := mkTs 2023 1 1 0 0 0
    sleep_start := mkTs 2023 1 1 23 0 0
    sleep_end := mkTs 2023 1 2 7 0 0
    quality := 85
    duration := 8
    latency := 60
    day_of_week := "Sunday"
    rolling_avg_duration := 8
    rolling_avg_quality := 85 }

/-- C6 counterexample: for a concrete single-row input the two
statistics functions follow different policies: `calculate_sleep_metrics`
returns normally with a `NaN` consistency (the `NaN`-sentinel policy),
while `perform_statistical_analysis` raises (its normality test rejects
samples of fewer than 8 observations). -/
theorem c6_single_row_mixed_policy :
    (calculate_sleep_metrics [c6Row]).consistencyIsNaN = true ∧
    (calculate_sleep_metrics [c6Row]).avg_duration = some 8 ∧
    perform_statistical_analysis [c6Row] = .error (skewtestMsg 1) := by
  refine ⟨?_, ?_, ?_⟩
  · simp [calculate_sleep_metrics, Metrics.consistencyIsNaN, var?]
  · simp [calculate_sleep_metrics, mean?, mean, c6Row]
  · simp [perform_statistical_analysis]

/-- C6 (amended): for fewer than 2 records the stdev-dependent
statistics do *not* follow one single policy across the two functions:
`calculate_sleep_metrics` returns a `NaN` sentinel for consistency
(duration std is `NaN`), while `perform_statistical_analysis` raises an
error (the `scipy` normality test rejects any sample of fewer than 8
observations).  Within each function the policy is uniform. -/
theorem c6_small_sample_policies (df : List FeatureRow) (h : df.length < 2) :
    (calculate_sleep_metrics df).consistencyIsNaN = true ∧
    (calculate_sleep_metrics df).duration_std_sq = none ∧
    perform_statistical_analysis df = .error (skewtestMsg df.length) := by
  have h8 : df.length < 8 := by omega
  refine ⟨?_, ?_, ?_⟩
  · simp [calculate_sleep_metrics, Metrics.consistencyIsNaN, var?, h]
  · simp [calculate_sleep_metrics, var?, h]
  · simp [perform_statistical_analysis, h8]

/-- C6 witness: the amended theorem instantiated at the empty table. -/
theorem c6_witness :
    (calculate_sleep_metrics []).consistencyIsNaN = true ∧
    (calculate_sleep_metrics []).duration_std_sq = none ∧
    perform_statistical_analysis [] = .error (skewtestMsg 0) := by
  exact c6_small_sample_policies [] (by norm_num)

/-- C5 (amended): when all required columns are present, all
date/timestamp values parse, and every quality is within `[0, 100]`,
`validate_data` returns `True` — but it mutates its argument: the three
timestamp columns of the post-state are overwritten with their parsed
datetime values (the quality column and row count are unchanged).  The
input is left unchanged only when those columns were already
datetime-typed. -/
theorem c5_validate_success_state (d s e : List RCell) (q : List ℚ)
    (dp sp ep : List RCell)
    (hd : toDatetimeCol d = some dp) (hs : toDatetimeCol s = some sp)
    (he : toDatetimeCol e = some ep)
    (hq : ∀ x ∈ q, 0 ≤ x ∧ x ≤ 100) :
    validate_data { date := some d, sleep_start := some s, sleep_end := some e, quality := some q } =
      .ok (true, { date := some dp, sleep_start := some sp, sleep_end := some ep, quality := some q }) := by
  simp only [validate_data, Option.isSome_some, Option.getD_some, hd, hs, he]
  simp only [and_self, if_true]
  rw [if_pos]
  rw [List.all_eq_true]
  intro x hx
  exact decide_eq_true (hq x hx)

def c5Before : RawDf :=
  { date := some [RCell.text "2023-01-01", RCell.text "2023-01-02"]
    sleep_start := some [RCell.text "2023-01-01 23:00:00", RCell.text "2023-01-02 23:30:00"]
    sleep_end := some [RCell.text "2023-01-02 07:00:00", RCell.text "2023-01-03 07:30:00"]
    quality := some [85, 78] }

def c5After : RawDf :=
  { date := some [RCell.time 1672531200, RCell.time 1672617600]
    sleep_start := some [RCell.time 1672614000, RCell.time 1672702200]
    sleep_end := some [RCell.time 1672642800, RCell.time 1672731000]
    quality := some [85, 78] }

/-- C5 counterexample: on a concrete dataframe with string-typed
date/timestamp columns, `validate_data` succeeds with `True` but the
post-state of its argument differs from the input (the columns now hold
parsed datetime values), refuting the no-mutation part of the claim. -/
theorem c5_validate_mutates_argument :
    validate_data c5Before = .ok (true, c5After) ∧ c5After ≠ c5Before := by
  constructor
  · rfl
  · decide

def c5Parsed : RawDf :=
  { date := some [RCell.time 10]
    sleep_start := some [RCell.time 20]
    sleep_end := some [RCell.time 30]
    quality := some [50] }

/-- C5 witness: the amended theorem instantiated at a concrete
dataframe whose columns are already datetime-typed (here the post-state
equals the input). -/
theorem c5_witness : validate_data c5Parsed = .ok (true, c5Parsed) := by
  have h := c5_validate_success_state [RCell.time 10] [RCell.time 20] [RCell.time 30] [50]
    [RCell.time 10] [RCell.time 20] [RCell.time 30] rfl rfl rfl (by norm_num)
  exact h

theorem mean_singleton (x : ℚ) : mean [x] = x := by
  simp [mean]

/-- C8: for every processed table and every row index `i`,
`rolling_avg_duration` (resp. `rolling_avg_quality`) at row `i` equals
the plain arithmetic mean of the duration (quality) values at rows
`max(0, i - 6)` through `i` in table order (`i - 6` is natural
subtraction, i.e. `max(0, i - 6)`), and at row `0` the window is exactly
the first record. -/
theorem c8_rolling_window_mean (rows : List RawRow) (i : Nat) (h : i < rows.length) :
    ((process_sleep_data rows).getD i ⟨0, 0, 0, 0, 0, 0, "", 0, 0⟩).rolling_avg_duration =
      mean (((rows.map duration_of).drop (i - 6)).take (i + 1 - (i - 6))) ∧
    ((process_sleep_data rows).getD i ⟨0, 0, 0, 0, 0, 0, "", 0, 0⟩).rolling_avg_quality =
      mean (((rows.map fun r => r.quality).drop (i - 6)).take (i + 1 - (i - 6))) ∧
    (i = 0 → ((process_sleep_data rows).getD i ⟨0, 0, 0, 0, 0, 0, "", 0, 0⟩).rolling_avg_duration =
      duration_of (rows.getD 0 ⟨0, 0, 0, 0⟩)) := by
  have h7 : i + 1 - 7 = i - 6 := by omega
  refine ⟨?_, ?_, ?_⟩
  · rw [getD_process_sleep_data rows i h]
    show (rollingMean 7 (rows.map duration_of)).getD i 0 = _
    rw [getD_rollingMean 7 _ i (by simpa using h)]
    rw [List.drop_take, h7]
  · rw [getD_process_sleep_data rows i h]
    show (rollingMean 7 (rows.map fun r => r.quality)).getD i 0 = _
    rw [getD_rollingMean 7 _ i (by simpa using h)]
    rw [List.drop_take, h7]
  · intro hi
    subst hi
    rw [getD_process_sleep_data rows 0 h]
    show (rollingMean 7 (rows.map duration_of)).getD 0 0 = _
    rw [getD_rollingMean 7 _ 0 (by simpa using h)]
    cases rows with
    | nil => simp at h
    | cons r t => simp [mean_singleton]

def c8Rows : List RawRow :=
  [{ date := mkTs 2023 2 1 0 0 0
     sleep_start := mkTs 2023 2 1 22 30 0
     sleep_end := mkTs 2023 2 2 6 30 0
     quality := 90 },
   { date := mkTs 2023 2 2 0 0 0
     sleep_start := mkTs 2023 2 2 23 0 0
     sleep_end := mkTs 2023 2 3 6 0 0
     quality := 60 }]

/-- C8 witness: the theorem instantiated at row `0` of a concrete
two-row input. -/
theorem c8_witness :
    ((process_sleep_data c8Rows).getD 0 ⟨0, 0, 0, 0, 0, 0, "", 0, 0⟩).rolling_avg_duration =
      mean (((c8Rows.map duration_of).drop (0 - 6)).take (0 + 1 - (0 - 6))) ∧
    ((process_sleep_data c8Rows).getD 0 ⟨0, 0, 0, 0, 0, 0, "", 0, 0⟩).rolling_avg_quality =
      mean (((c8Rows.map fun r => r.quality).drop (0 - 6)).take (0 + 1 - (0 - 6))) ∧
    (0 = 0 → ((process_sleep_data c8Rows).getD 0 ⟨0, 0, 0, 0, 0, 0, "", 0, 0⟩).rolling_avg_duration =
      duration_of (c8Rows.getD 0 ⟨0, 0, 0, 0⟩)) :=
  c8_rolling_window_mean c8Rows 0 (by norm_num [c8Rows])

theorem map_duration_process (rows : List RawRow) :
    (process_sleep_data rows).map (fun r => r.duration) = rows.map duration_of := by
  apply List.ext_getElem
  · simp [process_sleep_data]
  · intro i h1 h2
    simp [process_sleep_data, List.getElem_ofFn]

def c10Raw : List RawRow :=
  [{ date := mkTs 2023 1 1 0 0 0
     sleep_start := mkTs 2023 1 1 23 0 0
     sleep_end := mkTs 2023 1 2 7 0 0
     quality := 85 },
   { date := mkTs 2023 1 2 0 0 0
     sleep_start := mkTs 2023 1 2 23 30 0
     sleep_end := mkTs 2023 1 3 7 30 0
     quality := 78 }]

/-- C10: for every valid input, each row's duration equals
`(sleep_end - sleep_start)` in fractional hours exactly, and the
metrics' efficiency equals `mean(duration) / 8 * 100` exactly; the
two-record scenario (2023-01-01 23:00 to 07:00 next day, quality 85;
2023-01-02 23:30 to 07:30 next day, quality 78) yields durations
`[8, 8]`, `avg_duration = 8` and `efficiency = 100`. -/
theorem c10_duration_and_efficiency :
    (∀ (rows : List RawRow) (i : Nat), i < rows.length →
      ((process_sleep_data rows).getD i ⟨0, 0, 0, 0, 0, 0, "", 0, 0⟩).duration =
        (((rows.getD i ⟨0, 0, 0, 0⟩).sleep_end : ℚ) - ((rows.getD i ⟨0, 0, 0, 0⟩).sleep_start : ℚ)) / 3600) ∧
    (∀ df : List FeatureRow, df ≠ [] →
      (calculate_sleep_metrics df).avg_duration = some (mean (df.map fun r => r.duration)) ∧
      (calculate_sleep_metrics df).efficiency = some (mean (df.map fun r => r.duration) / 8 * 100)) ∧
    ((process_sleep_data c10Raw).map fun r => r.duration) = [8, 8] ∧
    (calculate_sleep_metrics (process_sleep_data c10Raw)).avg_duration = some 8 ∧
    (calculate_sleep_metrics (process_sleep_data c10Raw)).efficiency = some 100 := by
  have e1 : mkTs 2023 1 1 23 0 0 = 1672614000 := by decide
  have e2 : mkTs 2023 1 2 7 0 0 = 1672642800 := by decide
  have e3 : mkTs 2023 1 2 23 30 0 = 1672702200 := by decide
  have e4 : mkTs 2023 1 3 7 30 0 = 1672731000 := by decide
  have hdur : ((process_sleep_data c10Raw).map fun r => r.duration) = [8, 8] := by
    rw [map_duration_process]
    simp only [c10Raw, List.map_cons, List.map_nil, duration_of, e1, e2, e3, e4]
    norm_num
  refine ⟨?_, ?_, hdur, ?_, ?_⟩
  · intro rows i h
    rw [getD_process_sleep_data rows i h]
    rfl
  · intro df h
    constructor <;> simp [calculate_sleep_metrics, mean?, h]
  · simp [calculate_sleep_metrics, mean?, hdur, mean]
  · simp [calculate_sleep_metrics, mean?, hdur, mean]

/-- C10 witness: the theorem's per-row clause instantiated at row `0`
of the scenario input, together with its scenario efficiency clause. -/
theorem c10_witness :
    ((process_sleep_data c10Raw).getD 0 ⟨0, 0, 0, 0, 0, 0, "", 0, 0⟩).duration =
      (((c10Raw.getD 0 ⟨0, 0, 0, 0⟩).sleep_end : ℚ) - ((c10Raw.getD 0 ⟨0, 0, 0, 0⟩).sleep_start : ℚ)) / 3600 ∧
    (calculate_sleep_metrics (process_sleep_data c10Raw)).efficiency = some 100 := by
  refine ⟨c10_duration_and_efficiency.1 c10Raw 0 (by simp [c10Raw]),
    c10_duration_and_efficiency.2.2.2.2⟩
